import Mathlib

/-!
Shallow embedding of the OmegaAI backend proxy (src/server.js), the
POST /chat request-admission pipeline: request validation, Apple receipt
verification, entitlement matching over latest_receipt_info, in-memory
quota enforcement, upstream completion call, and usage accounting.

External effects (the Apple verifier, the OpenAI call, the clock) are
passed to the handler as oracle values describing what the external world
would answer for this request; the handler itself is a pure function from
those oracles and the usage state to a response, a new state, and flags
recording which external services were reached.
-/

namespace OmegaAI

/-- Value of a field of the JSON request body: either a JSON string, or
anything else (absent, null, number, array, object) — the handler's
`typeof x !== "string"` checks and the `includes` membership test treat
all non-string values alike, so one constructor suffices for them. -/
inductive BodyVal where
  | vstr (s : String)
  | vother
deriving DecidableEq, Repr

/-- Request body of POST /chat as destructured at line 33 of server.js. -/
structure ReqBody where
  receipt : BodyVal
  prompt : BodyVal
  model : BodyVal
deriving DecidableEq, Repr

/-- Subscription entry of the latest_receipt_info array, seen after the
handler's parseInt calls: a `none` in expires_date_ms or purchase_date_ms
models parseInt returning NaN (field absent or non-numeric). -/
structure SubEntry where
  product_id : String
  original_transaction_id : String
  expires_date_ms : Option Int
  purchase_date_ms : Option Int
deriving DecidableEq, Repr

/-- Parsed response of the Apple receipt verifier; `latest_receipt_info || []`
at line 62 makes the array field optional. -/
structure AppleResponse where
  latest_receipt_info : Option (List SubEntry)
deriving DecidableEq, Repr

/-- Oracle for the `verifyReceipt` call (lines 52-58): `err` models any
throw of the library — transport error, non-success response or malformed
payload from the verification service — which the handler's catch block
maps uniformly to one 403 rejection; `ok` carries the parsed response. -/
inductive VerifyOutcome where
  | err
  | ok (resp : AppleResponse)
deriving DecidableEq, Repr

/-- The message object of one upstream completion choice; `content` is
absent when the optional chain `?.content` would yield undefined. -/
structure UpstreamMessage where
  content : Option String
deriving DecidableEq, Repr

/-- One element of the upstream `choices` array. -/
structure UpstreamChoice where
  message : Option UpstreamMessage
deriving DecidableEq, Repr

/-- Parsed JSON body of a successful upstream completion response. -/
structure UpstreamJson where
  choices : Option (List UpstreamChoice)
deriving DecidableEq, Repr

/-- Oracle for the OpenAI completion call (lines 99-120): `notOk` models a
non-success HTTP status (`!openaiResponse.ok`), `ok` a success whose JSON
body parsed to `j`. -/
inductive UpstreamOutcome where
  | notOk
  | ok (j : UpstreamJson)
deriving DecidableEq, Repr

/-- Usage record stored per originalTransactionId (line 85):
`{ "gpt-3.5-turbo": 0, "gpt-4": 0 }`. -/
structure UsageRecord where
  gpt35 : Nat
  gpt4 : Nat
deriving DecidableEq, Repr

/-- The in-memory usageTracker Map (line 24), keyed by
originalTransactionId in insertion order. -/
abbrev Usage := List (String × UsageRecord)

/-- Body of an HTTP response: `{ reply: ... }` on success, `{ error: ... }`
on failure. -/
inductive ResponseBody where
  | reply (s : String)
  | error (s : String)
deriving DecidableEq, Repr

/-- An HTTP response as the caller observes it: status code and JSON body. -/
structure Response where
  status : Nat
  body : ResponseBody
deriving DecidableEq, Repr

/-- Result of one run of the handler: the response, the usage state after
the request, and whether the receipt verifier and the completion service
were contacted during the request. -/
structure HandlerResult where
  response : Response
  state : Usage
  verifierCalled : Bool
  upstreamCalled : Bool
deriving DecidableEq, Repr

/-- Model of String.prototype.trim, used by the validator and by the
reply extraction: strip leading and trailing whitespace. Written over the
character list so that it evaluates inside the kernel. -/
def jsTrim (s : String) : String :=
  ⟨((s.data.dropWhile Char.isWhitespace).reverse.dropWhile Char.isWhitespace).reverse⟩

/-- String field check of the validator (lines 36-41): the value is a JSON
string that is non-empty after trimming. -/
def isNonEmptyStr : BodyVal → Bool
  | .vstr s => jsTrim s != ""
  | .vother => false

/-- The `["gpt-3.5-turbo", "gpt-4"].includes(model)` membership test of
line 42; `includes` compares with strict equality, so a non-string value
is never a member. -/
def isSupportedModel : BodyVal → Bool
  | .vstr s => s == "gpt-3.5-turbo" || s == "gpt-4"
  | .vother => false

/-- Field access of a usage record by model string (`userUsage[model]`).
Model strings other than the two supported ids never reach this: the
validator admits only "gpt-3.5-turbo" and "gpt-4". -/
def recGet (r : UsageRecord) (m : String) : Nat :=
  if m == "gpt-4" then r.gpt4 else r.gpt35

/-- Field update of a usage record by model string (`... [model] += 1`). -/
def recBump (r : UsageRecord) (m : String) : UsageRecord :=
  if m == "gpt-4" then { r with gpt4 := r.gpt4 + 1 } else { r with gpt35 := r.gpt35 + 1 }

/-- Lookup in the usageTracker Map (`usageTracker.get(id)`). -/
def findRecord (st : Usage) (id : String) : Option UsageRecord :=
  (st.find? (fun p => p.1 == id)).map Prod.snd

/-- The `usageTracker.has` / `usageTracker.set(id, {0,0})` sequence of
lines 84-86: create the record with zero counts when absent (a Map append
in insertion order), leave the store unchanged otherwise. -/
def ensureRecord (st : Usage) (id : String) : Usage :=
  if (findRecord st id).isSome then st else st ++ [(id, ⟨0, 0⟩)]

/-- Observable count of a subscriber and model: the stored field, zero
when no record exists yet (a fresh record is created with zero counts). -/
def getCount (st : Usage) (id m : String) : Nat :=
  match findRecord st id with
  | some r => recGet r m
  | none => 0

/-- The commit of line 128, `usageTracker.get(originalTransactionId)[model] += 1`:
bump the model field of the first record stored under the id. A missing
record leaves the store unchanged; the handler only commits after the
quota phase has ensured the record exists. -/
def incrCount : Usage → String → String → Usage
  | [], _, _ => []
  | p :: rest, id, m =>
    if p.1 == id then (p.1, recBump p.2 m) :: rest else p :: incrCount rest id m

/-- The monthly quotas object of lines 90-93. Keys other than the two
supported model ids never reach this lookup: the validator rejects them. -/
def quotas (m : String) : Nat :=
  if m == "gpt-3.5-turbo" then 5000 else if m == "gpt-4" then 800 else 0

/-- Quota phase of lines 84-96: ensure the usage record exists, then pass
exactly when the current count is still below the ceiling (the handler
rejects when `userUsage[model] >= quotas[model]`). Kept as a separate step
from the commit (`incrCount`, line 128) because the awaited upstream call
stands between the two in the handler, a suspension point of the event
loop. -/
def quotaCheck (st : Usage) (id m : String) : Usage × Bool :=
  let st1 := ensureRecord st id
  (st1, decide (getCount st1 id m < quotas m))

/-- The model → product id mapping of line 61:
`model === "gpt-4" ? "com.omegaai.chat4" : "com.omegaai.chat3"`. -/
def productIdFor (m : String) : String :=
  if m == "gpt-4" then "com.omegaai.chat4" else "com.omegaai.chat3"

/-- Whether the scan of lines 67-76 accepts an entry: the product id
matches and the parsed expiration is strictly later than now. A `none`
expiration (parseInt NaN) fails the `expiresMs > nowMs` comparison and is
skipped. -/
def qualifies (now : Int) (productID : String) (e : SubEntry) : Bool :=
  e.product_id == productID &&
    match e.expires_date_ms with
    | some x => decide (now < x)
    | none => false

/-- Placement relation realizing the comparator of line 64,
`(a, b) => parseInt(b.purchase_date_ms) - parseInt(a.purchase_date_ms)`:
entry `e` may stay in front of entry `x` unless the comparator strictly
orders `x` first, i.e. unless both purchase keys are numbers and `x`'s is
strictly larger. A NaN key makes the comparator return NaN, which the
sort treats as a tie, preserving input order. -/
def purchaseBefore (e x : SubEntry) : Bool :=
  match e.purchase_date_ms, x.purchase_date_ms with
  | some p, some q => decide (q ≤ p)
  | _, _ => true

/-- Descending order on parsed purchase keys: the order the sort of
line 64 establishes between entries whose purchase keys both parsed to
numbers. -/
def purchaseGe (a b : SubEntry) : Prop :=
  ∀ x y, a.purchase_date_ms = some x → b.purchase_date_ms = some y → y ≤ x

/-- Stable insertion of an entry into an already-placed list: `e` goes in
front of the first element the comparator does not strictly order before
it, so key ties keep input order. -/
def insertDesc (e : SubEntry) : List SubEntry → List SubEntry
  | [] => [e]
  | x :: xs => if purchaseBefore e x then e :: x :: xs else x :: insertDesc e xs

/-- The `inApp.sort(...)` of line 64 as a stable sort, descending by
parsed purchase time (Array.prototype.sort is stable per ES2019). -/
def sortDesc (l : List SubEntry) : List SubEntry :=
  l.foldr insertDesc []

/-- Entitlement matching of lines 61-76: sort descending by purchase time,
then take the first entry of the requested product whose expiration is
strictly in the future. -/
def findValidTransaction (now : Int) (productID : String)
    (entries : List SubEntry) : Option SubEntry :=
  (sortDesc entries).find? (qualifies now productID)

/-- The optional chain `openaiJson.choices?.[0]?.message?.content` of
line 121, before trimming. -/
def getContent (j : UpstreamJson) : Option String :=
  match j.choices with
  | some (c :: _) =>
    match c.message with
    | some msg => msg.content
    | none => none
  | _ => none

/-- Shallow embedding of the POST /chat handler, lines 31-137 of
src/server.js. `verify` is what the Apple verifier would answer for this
receipt, `now` the clock, `upstream` what the completion service would
answer; `st` is the usageTracker state when the request is handled with
no other request interleaved (the concurrent interleaving of the quota
phase is treated separately through `quotaCheck` and `incrCount`). -/
def handleChat (body : ReqBody) (verify : VerifyOutcome) (now : Int)
    (upstream : UpstreamOutcome) (st : Usage) : HandlerResult :=
  if !(isNonEmptyStr body.receipt) then
    ⟨⟨400, .error "Missing or invalid receipt."⟩, st, false, false⟩
  else if !(isNonEmptyStr body.prompt) then
    ⟨⟨400, .error "Missing or empty prompt."⟩, st, false, false⟩
  else
    match body.model with
    | .vother => ⟨⟨400, .error "Invalid model requested."⟩, st, false, false⟩
    | .vstr m =>
      if !(m == "gpt-3.5-turbo" || m == "gpt-4") then
        ⟨⟨400, .error "Invalid model requested."⟩, st, false, false⟩
      else
        match verify with
        | .err => ⟨⟨403, .error "Failed to verify receipt."⟩, st, true, false⟩
        | .ok resp =>
          let inApp := resp.latest_receipt_info.getD []
          match findValidTransaction now (productIdFor m) inApp with
          | none =>
            ⟨⟨403, .error "No active subscription for requested model."⟩, st, true, false⟩
          | some tx =>
            let origId := tx.original_transaction_id
            let q := quotaCheck st origId m
            if !q.2 then
              ⟨⟨403, .error "Monthly quota exceeded for this model."⟩, q.1, true, false⟩
            else
              match upstream with
              | .notOk =>
                ⟨⟨500, .error "Error communicating with OpenAI."⟩, q.1, true, true⟩
              | .ok j =>
                match (getContent j).map jsTrim with
                | none =>
                  ⟨⟨500, .error "Malformed response from OpenAI."⟩, q.1, true, true⟩
                | some t =>
                  if t == "" then
                    ⟨⟨500, .error "Malformed response from OpenAI."⟩, q.1, true, true⟩
                  else
                    ⟨⟨200, .reply t⟩, incrCount q.1 origId m, true, true⟩

end OmegaAI

namespace OmegaAI

theorem recGet_zero (m : String) : recGet ⟨0, 0⟩ m = 0 := by
  unfold recGet; split <;> rfl

theorem recGet_recBump_self (r : UsageRecord) (m : String) :
    recGet (recBump r m) m = recGet r m + 1 := by
  unfold recGet recBump; split <;> simp

theorem recGet_recBump_cases (r : UsageRecord) (m m' : String) :
    recGet (recBump r m) m' = recGet r m'
      ∨ recGet (recBump r m) m' = recGet r m' + 1 := by
  unfold recGet recBump
  cases h : (m == "gpt-4") <;> cases h' : (m' == "gpt-4") <;> simp [h, h']

theorem getCount_cons (p : String × UsageRecord) (rest : Usage) (id' m' : String) :
    getCount (p :: rest) id' m'
      = if p.1 == id' then recGet p.2 m' else getCount rest id' m' := by
  simp only [getCount, findRecord, List.find?]
  cases h : (p.1 == id') <;> simp [h]

theorem findRecord_cons (p : String × UsageRecord) (rest : Usage) (id' : String) :
    findRecord (p :: rest) id'
      = if p.1 == id' then some p.2 else findRecord rest id' := by
  simp only [findRecord, List.find?]
  cases h : (p.1 == id') <;> simp [h]

theorem getCount_append_zero (st : Usage) (id id' m' : String) :
    getCount (st ++ [(id, ⟨0, 0⟩)]) id' m' = getCount st id' m' := by
  induction st with
  | nil =>
    simp only [List.nil_append, getCount_cons]
    cases h : (id == id') <;> simp [h, recGet_zero, getCount, findRecord, List.find?]
  | cons p rest ih =>
    simp only [List.cons_append, getCount_cons, ih]

theorem getCount_ensureRecord (st : Usage) (id id' m' : String) :
    getCount (ensureRecord st id) id' m' = getCount st id' m' := by
  unfold ensureRecord
  split
  · rfl
  · exact getCount_append_zero st id id' m'

theorem findRecord_append_self (st : Usage) (id : String) (r : UsageRecord) :
    (findRecord (st ++ [(id, r)]) id).isSome := by
  induction st with
  | nil => simp [findRecord_cons]
  | cons p rest ih =>
    rw [List.cons_append, findRecord_cons]
    cases h : (p.1 == id) <;> simp [h]
    · exact ih

theorem findRecord_ensureRecord_self (st : Usage) (id : String) :
    (findRecord (ensureRecord st id) id).isSome := by
  unfold ensureRecord
  split
  · assumption
  · exact findRecord_append_self st id ⟨0, 0⟩

theorem findRecord_append_mono (st : Usage) (l : Usage) (id' : String)
    (h : (findRecord st id').isSome) : (findRecord (st ++ l) id').isSome := by
  induction st with
  | nil => simp [findRecord, List.find?] at h
  | cons p rest ih =>
    rw [findRecord_cons] at h
    rw [List.cons_append, findRecord_cons]
    cases hp : (p.1 == id')
    · simp only [hp, Bool.false_eq_true, if_false] at h ⊢
      exact ih h
    · simp [hp]

theorem findRecord_ensureRecord_mono (st : Usage) (id id' : String)
    (h : (findRecord st id').isSome) :
    (findRecord (ensureRecord st id) id').isSome := by
  unfold ensureRecord
  split
  · exact h
  · exact findRecord_append_mono st _ id' h

theorem getCount_incrCount_self (st : Usage) (id m : String)
    (h : (findRecord st id).isSome) :
    getCount (incrCount st id m) id m = getCount st id m + 1 := by
  induction st with
  | nil => simp [findRecord, List.find?] at h
  | cons p rest ih =>
    rw [findRecord_cons] at h
    unfold incrCount
    cases hp : (p.1 == id) with
    | true => simp only [hp, if_pos rfl|>.symm]; simp [getCount_cons, hp, recGet_recBump_self]
    | false =>
      simp only [hp] at h ⊢
      simp only [Bool.false_eq_true, if_false, getCount_cons, hp]
      exact ih (by simpa using h)

theorem getCount_incrCount_cases (st : Usage) (id m id' m' : String) :
    getCount (incrCount st id m) id' m' = getCount st id' m'
      ∨ getCount (incrCount st id m) id' m' = getCount st id' m' + 1 := by
  induction st with
  | nil => left; rfl
  | cons p rest ih =>
    unfold incrCount
    cases hp : (p.1 == id)
    · simp only [hp, Bool.false_eq_true, if_false]
      rw [getCount_cons, getCount_cons]
      cases hp' : (p.1 == id')
      · simp only [hp', Bool.false_eq_true, if_false]
        exact ih
      · simp only [hp', if_true]
        left; trivial
    · simp only [hp, if_true]
      rw [getCount_cons, getCount_cons]
      cases hp' : (p.1 == id')
      · simp only [hp', Bool.false_eq_true, if_false]
        left; trivial
      · simp only [hp', if_true]
        exact recGet_recBump_cases p.2 m m'

theorem findRecord_incrCount (st : Usage) (id m id' : String) :
    (findRecord (incrCount st id m) id').isSome = (findRecord st id').isSome := by
  induction st with
  | nil => rfl
  | cons p rest ih =>
    unfold incrCount
    cases hp : (p.1 == id)
    · simp only [hp, Bool.false_eq_true, if_false]
      rw [findRecord_cons, findRecord_cons]
      cases hp' : (p.1 == id') <;> simp [hp', ih]
    · simp only [hp, if_true]
      rw [findRecord_cons, findRecord_cons]
      cases hp' : (p.1 == id') <;> simp [hp']

theorem quotaCheck_fst (st : Usage) (id m : String) :
    (quotaCheck st id m).1 = ensureRecord st id := rfl

theorem quotaCheck_snd (st : Usage) (id m : String) :
    (quotaCheck st id m).2 = decide (getCount st id m < quotas m) := by
  simp [quotaCheck, getCount_ensureRecord]

theorem state_shape (body : ReqBody) (verify : VerifyOutcome) (now : Int)
    (upstream : UpstreamOutcome) (st : Usage) :
    (handleChat body verify now upstream st).response.status = 200 ∨
      (∀ id' m', getCount (handleChat body verify now upstream st).state id' m'
        = getCount st id' m') := by
  simp only [handleChat]
  split
  · right; intro id' m'; rfl
  · split
    · right; intro id' m'; rfl
    · split
      · right; intro id' m'; rfl
      · split
        · right; intro id' m'; rfl
        · split
          · right; intro id' m'; rfl
          · split
            · right; intro id' m'; rfl
            · split
              · right; intro id' m'
                simp [quotaCheck_fst, getCount_ensureRecord]
              · split
                · right; intro id' m'
                  simp [quotaCheck_fst, getCount_ensureRecord]
                · split
                  · right; intro id' m'
                    simp [quotaCheck_fst, getCount_ensureRecord]
                  · split
                    · right; intro id' m'
                      simp [quotaCheck_fst, getCount_ensureRecord]
                    · left; rfl

/-- Claim C1: after validation, receipt verification and entitlement
matching succeed, the handler rejects with 403 QuotaExceeded exactly when
the subscriber's current count for the requested model has reached the
fixed ceiling (5000 for gpt-3.5-turbo, 800 for gpt-4), and such a
rejection happens before the upstream completion call, which is then
never made. -/
theorem quota_ceiling_enforced (rs ps m : String) (hr : jsTrim rs ≠ "")
    (hp : jsTrim ps ≠ "") (hm : m = "gpt-3.5-turbo" ∨ m = "gpt-4")
    (resp : AppleResponse) (now : Int) (tx : SubEntry)
    (htx : findValidTransaction now (productIdFor m)
      (resp.latest_receipt_info.getD []) = some tx)
    (upstream : UpstreamOutcome) (st : Usage) :
    (quotas m ≤ getCount st tx.original_transaction_id m ↔
      (handleChat ⟨.vstr rs, .vstr ps, .vstr m⟩ (.ok resp) now upstream st).response
        = ⟨403, .error "Monthly quota exceeded for this model."⟩) ∧
    (quotas m ≤ getCount st tx.original_transaction_id m →
      (handleChat ⟨.vstr rs, .vstr ps, .vstr m⟩ (.ok resp) now upstream st).upstreamCalled
        = false) ∧
    quotas "gpt-3.5-turbo" = 5000 ∧ quotas "gpt-4" = 800 := by
  have hmb : (m == "gpt-3.5-turbo" || m == "gpt-4") = true := by
    rcases hm with h | h <;> simp [h]
  simp only [handleChat, isNonEmptyStr, bne_iff_ne, ne_eq, hr, hp, hmb, htx,
    not_false_eq_true, Bool.not_true, Bool.false_eq_true, if_false, ite_false]
  by_cases hq : quotas m ≤ getCount st tx.original_transaction_id m
  · have h2 : (quotaCheck st tx.original_transaction_id m).2 = false := by
      rw [quotaCheck_snd]; simp; omega
    refine ⟨⟨fun _ => by simp [h2, hr, hp], fun _ => hq⟩,
      fun _ => by simp [h2, hr, hp], by rfl, by rfl⟩
  · have h2 : (quotaCheck st tx.original_transaction_id m).2 = true := by
      rw [quotaCheck_snd]; simp; omega
    simp only [h2, Bool.not_true, Bool.false_eq_true, if_false]
    refine ⟨?_, fun h => absurd h hq, by rfl, by rfl⟩
    constructor
    · intro h; exact absurd h hq
    · intro h
      exfalso
      rcases upstream with _ | j
      · simp [hr, hp] at h
      · rcases hco : (getContent j).map jsTrim with _ | t
        · simp [hr, hp, hco] at h
        · by_cases ht : t = "" <;> simp [hr, hp, hco, ht] at h

/-- Witness for C1: a subscriber at 800 prior gpt-4 calls with a valid
unexpired premium entitlement is rejected with 403 QuotaExceeded. -/
theorem quota_ceiling_enforced_witness :
    (handleChat ⟨.vstr "r", .vstr "p", .vstr "gpt-4"⟩
      (.ok ⟨some [⟨"com.omegaai.chat4", "T1", some 10, some 5⟩]⟩) 0 .notOk
      [("T1", ⟨0, 800⟩)]).response
      = ⟨403, .error "Monthly quota exceeded for this model."⟩ := by
  have h := quota_ceiling_enforced "r" "p" "gpt-4" (by decide) (by decide)
    (Or.inr rfl) ⟨some [⟨"com.omegaai.chat4", "T1", some 10, some 5⟩]⟩ 0
    ⟨"com.omegaai.chat4", "T1", some 10, some 5⟩ (by decide) .notOk
    [("T1", ⟨0, 800⟩)]
  exact h.1.mp (by decide)

/-- Claim C3: whenever a request does not end in a 200 response — invalid
request, receipt failure, no subscription, quota exceeded, upstream
failure or malformed upstream reply — every stored usage count is left
exactly as it was. -/
theorem no_usage_change_on_failure (body : ReqBody) (verify : VerifyOutcome)
    (now : Int) (upstream : UpstreamOutcome) (st : Usage)
    (h : (handleChat body verify now upstream st).response.status ≠ 200)
    (id' m' : String) :
    getCount (handleChat body verify now upstream st).state id' m'
      = getCount st id' m' := by
  rcases state_shape body verify now upstream st with h200 | hpres
  · exact absurd h200 h
  · exact hpres id' m'

/-- Witness for C3: a failed upstream call leaves the count unchanged. -/
theorem no_usage_change_on_failure_witness :
    getCount (handleChat ⟨.vstr "r", .vstr "p", .vstr "gpt-4"⟩
      (.ok ⟨some [⟨"com.omegaai.chat4", "T1", some 10, some 5⟩]⟩) 0 .notOk
      [("T1", ⟨7, 9⟩)]).state "T1" "gpt-4"
      = getCount [("T1", ⟨7, 9⟩)] "T1" "gpt-4" :=
  no_usage_change_on_failure ⟨.vstr "r", .vstr "p", .vstr "gpt-4"⟩
    (.ok ⟨some [⟨"com.omegaai.chat4", "T1", some 10, some 5⟩]⟩) 0 .notOk
    [("T1", ⟨7, 9⟩)] (by decide) "T1" "gpt-4"

/-- Claim C5: a request whose receipt or prompt is not a non-empty string
after trimming, or whose model is outside the two supported ids, is
answered 400 with the message naming the first offending field, the state
is untouched and the receipt verifier is never contacted. -/
theorem invalid_request_rejected_early (body : ReqBody) (verify : VerifyOutcome)
    (now : Int) (upstream : UpstreamOutcome) (st : Usage)
    (h : isNonEmptyStr body.receipt = false ∨ isNonEmptyStr body.prompt = false
      ∨ isSupportedModel body.model = false) :
    (handleChat body verify now upstream st).response.status = 400 ∧
    (handleChat body verify now upstream st).verifierCalled = false ∧
    (handleChat body verify now upstream st).state = st ∧
    (handleChat body verify now upstream st).response.body
      = .error (if isNonEmptyStr body.receipt = false then "Missing or invalid receipt."
          else if isNonEmptyStr body.prompt = false then "Missing or empty prompt."
          else "Invalid model requested.") := by
  cases hrv : isNonEmptyStr body.receipt with
  | false => simp [handleChat, hrv]
  | true =>
    cases hpv : isNonEmptyStr body.prompt with
    | false => simp [handleChat, hrv, hpv]
    | true =>
      have hmv : isSupportedModel body.model = false := by
        rcases h with h | h | h
        · rw [hrv] at h; cases h
        · rw [hpv] at h; cases h
        · exact h
      cases hb : body.model with
      | vother => simp [handleChat, hrv, hpv, hb]
      | vstr mm =>
        have hmm : (mm == "gpt-3.5-turbo" || mm == "gpt-4") = false := by
          have h' := hmv; rw [hb] at h'; simpa [isSupportedModel] using h'
        simp [handleChat, hrv, hpv, hb, hmm]

/-- Witness for C5: a non-string receipt is rejected 400 and the verifier
is not called. -/
theorem invalid_request_rejected_early_witness :
    (handleChat ⟨.vother, .vstr "p", .vstr "gpt-4"⟩ .err 0 .notOk []).response.status = 400 ∧
    (handleChat ⟨.vother, .vstr "p", .vstr "gpt-4"⟩ .err 0 .notOk []).verifierCalled = false :=
  ⟨(invalid_request_rejected_early ⟨.vother, .vstr "p", .vstr "gpt-4"⟩ .err 0 .notOk []
      (Or.inl rfl)).1,
   (invalid_request_rejected_early ⟨.vother, .vstr "p", .vstr "gpt-4"⟩ .err 0 .notOk []
      (Or.inl rfl)).2.1⟩

/-- Claim C6: every failure of the receipt-verification call — the oracle
constructor covers any transport error, non-success response or malformed
payload, which the library surfaces as a single thrown error — yields
exactly the 403 rejection, leaves the state unchanged and never reaches
the completion service. -/
theorem receipt_verification_failure_uniform (rs ps m : String)
    (hr : jsTrim rs ≠ "") (hp : jsTrim ps ≠ "")
    (hm : m = "gpt-3.5-turbo" ∨ m = "gpt-4")
    (now : Int) (upstream : UpstreamOutcome) (st : Usage) :
    handleChat ⟨.vstr rs, .vstr ps, .vstr m⟩ .err now upstream st
      = ⟨⟨403, .error "Failed to verify receipt."⟩, st, true, false⟩ := by
  have hmb : (m == "gpt-3.5-turbo" || m == "gpt-4") = true := by
    rcases hm with h | h <;> simp [h]
  simp [handleChat, isNonEmptyStr, hr, hp, hmb]

/-- Witness for C6: a concrete failing verification is answered 403 with
no upstream contact. -/
theorem receipt_verification_failure_uniform_witness :
    handleChat ⟨.vstr "r", .vstr "p", .vstr "gpt-3.5-turbo"⟩ .err 0 .notOk []
      = ⟨⟨403, .error "Failed to verify receipt."⟩, [], true, false⟩ :=
  receipt_verification_failure_uniform "r" "p" "gpt-3.5-turbo" (by decide)
    (by decide) (Or.inl rfl) 0 .notOk []

/-- Claim C4: on a successful upstream call whose first choice carries
text that is non-empty after trimming, the handler answers 200 with the
trimmed text as the reply and the requested model's count rises by
exactly one; when the text is absent or trims to empty it answers 500
UpstreamMalformedResponse. -/
theorem success_reply_and_commit (rs ps m : String) (hr : jsTrim rs ≠ "")
    (hp : jsTrim ps ≠ "") (hm : m = "gpt-3.5-turbo" ∨ m = "gpt-4")
    (resp : AppleResponse) (now : Int) (tx : SubEntry)
    (htx : findValidTransaction now (productIdFor m)
      (resp.latest_receipt_info.getD []) = some tx)
    (st : Usage)
    (hq : getCount st tx.original_transaction_id m < quotas m)
    (j : UpstreamJson) :
    (∀ c, getContent j = some c → jsTrim c ≠ "" →
      (handleChat ⟨.vstr rs, .vstr ps, .vstr m⟩ (.ok resp) now (.ok j) st).response
          = ⟨200, .reply (jsTrim c)⟩ ∧
        getCount (handleChat ⟨.vstr rs, .vstr ps, .vstr m⟩ (.ok resp) now (.ok j) st).state
            tx.original_transaction_id m
          = getCount st tx.original_transaction_id m + 1) ∧
    ((getContent j).map jsTrim = none ∨ (getContent j).map jsTrim = some "" →
      (handleChat ⟨.vstr rs, .vstr ps, .vstr m⟩ (.ok resp) now (.ok j) st).response
        = ⟨500, .error "Malformed response from OpenAI."⟩) := by
  have hmb : (m == "gpt-3.5-turbo" || m == "gpt-4") = true := by
    rcases hm with h | h <;> simp [h]
  have h2 : (quotaCheck st tx.original_transaction_id m).2 = true := by
    rw [quotaCheck_snd]; simp [hq]
  constructor
  · intro c hc ht
    constructor
    · simp [handleChat, isNonEmptyStr, hr, hp, hmb, htx, h2, hc, ht]
    · have hstate :
          (handleChat ⟨.vstr rs, .vstr ps, .vstr m⟩ (.ok resp) now (.ok j) st).state
            = incrCount (ensureRecord st tx.original_transaction_id)
                tx.original_transaction_id m := by
        simp [handleChat, isNonEmptyStr, hr, hp, hmb, htx, h2, hc, ht, quotaCheck_fst]
      rw [hstate,
        getCount_incrCount_self _ _ _ (findRecord_ensureRecord_self st _),
        getCount_ensureRecord]
  · intro hmal
    rcases hmal with hmal | hmal <;>
      simp [handleChat, isNonEmptyStr, hr, hp, hmb, htx, h2, hmal]

/-- Witness for C4: the spec's concrete scenario — prompt "Hello",
cheap-tier entitlement, upstream says " Hi there " — gets reply
"Hi there" with status 200 and the gpt-3.5-turbo count going 0 to 1. -/
theorem success_reply_and_commit_witness :
    (handleChat ⟨.vstr "r", .vstr "Hello", .vstr "gpt-3.5-turbo"⟩
      (.ok ⟨some [⟨"com.omegaai.chat3", "T1", some 10, some 5⟩]⟩) 0
      (.ok ⟨some [⟨some ⟨some " Hi there "⟩⟩]⟩) []).response
      = ⟨200, .reply "Hi there"⟩ ∧
    getCount (handleChat ⟨.vstr "r", .vstr "Hello", .vstr "gpt-3.5-turbo"⟩
      (.ok ⟨some [⟨"com.omegaai.chat3", "T1", some 10, some 5⟩]⟩) 0
      (.ok ⟨some [⟨some ⟨some " Hi there "⟩⟩]⟩) []).state "T1" "gpt-3.5-turbo" = 1 := by
  have h := success_reply_and_commit "r" "Hello" "gpt-3.5-turbo" (by decide) (by decide)
    (Or.inl rfl) ⟨some [⟨"com.omegaai.chat3", "T1", some 10, some 5⟩]⟩ 0
    ⟨"com.omegaai.chat3", "T1", some 10, some 5⟩ (by decide) [] (by decide)
    ⟨some [⟨some ⟨some " Hi there "⟩⟩]⟩
  have hc := h.1 " Hi there " rfl (by decide)
  refine ⟨?_, ?_⟩
  · rw [hc.1]; decide
  · rw [hc.2]; decide

/-- Counterexample to claim C7 as stated: two requests both rejected from
the access-denied class (one by receipt verification, one by quota) share
status 403 but observe different response bodies, so the responses are
not identical. -/
theorem denied_responses_distinguishable_cex :
    (handleChat ⟨.vstr "r", .vstr "p", .vstr "gpt-4"⟩ .err 0 .notOk []).response.status = 403 ∧
    (handleChat ⟨.vstr "r", .vstr "p", .vstr "gpt-4"⟩
        (.ok ⟨some [⟨"com.omegaai.chat4", "T1", some 10, some 5⟩]⟩) 0 .notOk
        [("T1", ⟨0, 800⟩)]).response.status = 403 ∧
    (handleChat ⟨.vstr "r", .vstr "p", .vstr "gpt-4"⟩ .err 0 .notOk []).response
      ≠ (handleChat ⟨.vstr "r", .vstr "p", .vstr "gpt-4"⟩
          (.ok ⟨some [⟨"com.omegaai.chat4", "T1", some 10, some 5⟩]⟩) 0 .notOk
          [("T1", ⟨0, 800⟩)]).response := by decide

/-- Claim C7 (amended): the three access-denied rejections all carry
status 403, but their bodies are three pairwise distinct error messages,
so the caller can tell which of the three conditions occurred. -/
theorem denied_responses_same_status (body : ReqBody) (verify : VerifyOutcome)
    (now : Int) (upstream : UpstreamOutcome) (st : Usage) :
    ((handleChat body verify now upstream st).response.body
        = .error "Failed to verify receipt."
      ∨ (handleChat body verify now upstream st).response.body
        = .error "No active subscription for requested model."
      ∨ (handleChat body verify now upstream st).response.body
        = .error "Monthly quota exceeded for this model." →
      (handleChat body verify now upstream st).response.status = 403) ∧
    (ResponseBody.error "Failed to verify receipt."
        ≠ .error "No active subscription for requested model." ∧
      ResponseBody.error "Failed to verify receipt."
        ≠ .error "Monthly quota exceeded for this model." ∧
      ResponseBody.error "No active subscription for requested model."
        ≠ .error "Monthly quota exceeded for this model.") := by
  refine ⟨fun h => ?_, by decide, by decide, by decide⟩
  revert h
  simp only [handleChat]
  repeat' split
  all_goals intro h
  all_goals first
  | rfl
  | (rcases h with h | h | h <;> first | (exact absurd h (by decide)) | simp at h)

/-- Witness for C7 (amended): a quota rejection carries status 403. -/
theorem denied_responses_same_status_witness :
    (handleChat ⟨.vstr "r", .vstr "p", .vstr "gpt-4"⟩
        (.ok ⟨some [⟨"com.omegaai.chat4", "T1", some 10, some 5⟩]⟩) 0 .notOk
        [("T1", ⟨0, 800⟩)]).response.status = 403 :=
  (denied_responses_same_status ⟨.vstr "r", .vstr "p", .vstr "gpt-4"⟩
      (.ok ⟨some [⟨"com.omegaai.chat4", "T1", some 10, some 5⟩]⟩) 0 .notOk
      [("T1", ⟨0, 800⟩)]).1 (Or.inr (Or.inr (by decide)))

theorem state_shape_cases (body : ReqBody) (verify : VerifyOutcome) (now : Int)
    (upstream : UpstreamOutcome) (st : Usage) :
    (handleChat body verify now upstream st).state = st
      ∨ (∃ x, (handleChat body verify now upstream st).state = ensureRecord st x)
      ∨ (∃ x mm, (handleChat body verify now upstream st).state
          = incrCount (ensureRecord st x) x mm) := by
  simp only [handleChat]
  repeat' split
  all_goals first
  | (left; rfl)
  | (right; left; exact ⟨_, rfl⟩)
  | (right; right; exact ⟨_, _, rfl⟩)

/-- Claim C8: one handled request never decreases any stored usage count:
every count either stays unchanged or rises by exactly one, and a record
present before the request is still present after it. -/
theorem usage_counts_monotone (body : ReqBody) (verify : VerifyOutcome)
    (now : Int) (upstream : UpstreamOutcome) (st : Usage) (id m : String) :
    (getCount st id m ≤ getCount (handleChat body verify now upstream st).state id m) ∧
    (getCount (handleChat body verify now upstream st).state id m = getCount st id m
      ∨ getCount (handleChat body verify now upstream st).state id m
        = getCount st id m + 1) ∧
    ((findRecord st id).isSome →
      (findRecord (handleChat body verify now upstream st).state id).isSome) := by
  rcases state_shape_cases body verify now upstream st with hs | ⟨x, hs⟩ | ⟨x, mm, hs⟩
  · rw [hs]
    exact ⟨Nat.le_refl _, Or.inl rfl, fun h => h⟩
  · rw [hs]
    refine ⟨Nat.le_of_eq (getCount_ensureRecord st x id m).symm,
      Or.inl (getCount_ensureRecord st x id m), findRecord_ensureRecord_mono st x id⟩
  · rw [hs]
    have hbase := getCount_ensureRecord st x id m
    have hcases := getCount_incrCount_cases (ensureRecord st x) x mm id m
    rw [hbase] at hcases
    refine ⟨?_, hcases, ?_⟩
    · rcases hcases with h | h <;> omega
    · intro hrec
      rw [findRecord_incrCount]
      exact findRecord_ensureRecord_mono st x id hrec

/-- Witness for C8: a successful request leaves the record present and
moves the count by one. -/
theorem usage_counts_monotone_witness :
    (findRecord (handleChat ⟨.vstr "r", .vstr "Hello", .vstr "gpt-3.5-turbo"⟩
      (.ok ⟨some [⟨"com.omegaai.chat3", "T1", some 10, some 5⟩]⟩) 0
      (.ok ⟨some [⟨some ⟨some "Hi"⟩⟩]⟩) [("T1", ⟨4, 0⟩)]).state "T1").isSome :=
  (usage_counts_monotone ⟨.vstr "r", .vstr "Hello", .vstr "gpt-3.5-turbo"⟩
      (.ok ⟨some [⟨"com.omegaai.chat3", "T1", some 10, some 5⟩]⟩) 0
      (.ok ⟨some [⟨some ⟨some "Hi"⟩⟩]⟩) [("T1", ⟨4, 0⟩)] "T1" "gpt-3.5-turbo").2.2
    (by decide)

theorem ensureRecord_idem (st : Usage) (id : String) :
    ensureRecord (ensureRecord st id) id = ensureRecord st id := by
  have h := findRecord_ensureRecord_self st id
  show (if (findRecord (ensureRecord st id) id).isSome then ensureRecord st id
    else ensureRecord st id ++ [(id, ⟨0, 0⟩)]) = ensureRecord st id
  rw [if_pos h]

/-- Counterexample to claim C9 as stated: the quota-count read and the
increment of a request are separated by the awaited upstream call, a
suspension point of the event loop, so the schedule check, check, commit,
commit of two requests for the same subscriber and model is possible;
starting one below the ceiling, both checks pass on the same
pre-increment count 799 and the two commits drive the count to 801,
above the 800 ceiling. -/
theorem quota_race_cex :
    (quotaCheck [("T1", ⟨0, 799⟩)] "T1" "gpt-4").2 = true ∧
    (quotaCheck (quotaCheck [("T1", ⟨0, 799⟩)] "T1" "gpt-4").1 "T1" "gpt-4").2 = true ∧
    getCount (quotaCheck [("T1", ⟨0, 799⟩)] "T1" "gpt-4").1 "T1" "gpt-4" = 799 ∧
    getCount (quotaCheck (quotaCheck [("T1", ⟨0, 799⟩)] "T1" "gpt-4").1 "T1" "gpt-4").1
      "T1" "gpt-4" = 799 ∧
    getCount (incrCount (incrCount
      (quotaCheck (quotaCheck [("T1", ⟨0, 799⟩)] "T1" "gpt-4").1 "T1" "gpt-4").1
      "T1" "gpt-4") "T1" "gpt-4") "T1" "gpt-4" = 801 ∧
    quotas "gpt-4" = 800 := by decide

/-- Claim C9 (amended): the reference behavior does not serialize the
quota check and the commit — whenever a subscriber's count is one below
the ceiling, the interleaving check, check, commit, commit of two
requests for the same subscriber and model passes both checks and leaves
the count one above the ceiling. -/
theorem quota_race_amended (st : Usage) (id m : String)
    (h : getCount st id m + 1 = quotas m) :
    (quotaCheck st id m).2 = true ∧
    (quotaCheck (quotaCheck st id m).1 id m).2 = true ∧
    getCount (incrCount (incrCount
        (quotaCheck (quotaCheck st id m).1 id m).1 id m) id m) id m
      = quotas m + 1 := by
  have hg : getCount (ensureRecord st id) id m = getCount st id m :=
    getCount_ensureRecord st id id m
  have hc1 : (quotaCheck st id m).2 = true := by
    rw [quotaCheck_snd]; simp; omega
  have hc2 : (quotaCheck (ensureRecord st id) id m).2 = true := by
    rw [quotaCheck_snd]; simp [hg]; omega
  refine ⟨hc1, ?_, ?_⟩
  · rw [quotaCheck_fst]; exact hc2
  · rw [quotaCheck_fst, quotaCheck_fst, ensureRecord_idem]
    have hs1 : (findRecord (ensureRecord st id) id).isSome :=
      findRecord_ensureRecord_self st id
    have hs2 : (findRecord (incrCount (ensureRecord st id) id m) id).isSome := by
      rw [findRecord_incrCount]; exact hs1
    rw [getCount_incrCount_self _ _ _ hs2, getCount_incrCount_self _ _ _ hs1, hg]
    omega

/-- Witness for C9 (amended): at count 799 of 800, the interleaved
schedule ends at 801. -/
theorem quota_race_amended_witness :
    getCount (incrCount (incrCount
        (quotaCheck (quotaCheck [("T1", ⟨0, 799⟩)] "T1" "gpt-4").1 "T1" "gpt-4").1
        "T1" "gpt-4") "T1" "gpt-4") "T1" "gpt-4"
      = quotas "gpt-4" + 1 :=
  (quota_race_amended [("T1", ⟨0, 799⟩)] "T1" "gpt-4" (by decide)).2.2

theorem insertDesc_perm (e : SubEntry) (l : List SubEntry) :
    (insertDesc e l).Perm (e :: l) := by
  induction l with
  | nil => exact List.Perm.refl _
  | cons x xs ih =>
    unfold insertDesc
    split
    · exact List.Perm.refl _
    · exact (ih.cons x).trans (List.Perm.swap e x xs)

theorem sortDesc_perm (l : List SubEntry) : (sortDesc l).Perm l := by
  induction l with
  | nil => exact List.Perm.refl _
  | cons a l ih =>
    have hs : sortDesc (a :: l) = insertDesc a (sortDesc l) := rfl
    rw [hs]
    exact (insertDesc_perm a (sortDesc l)).trans (ih.cons a)

theorem purchaseBefore_false {e x : SubEntry} (h : purchaseBefore e x = false) :
    ∃ p q, e.purchase_date_ms = some p ∧ x.purchase_date_ms = some q ∧ p < q := by
  unfold purchaseBefore at h
  rcases he : e.purchase_date_ms with _ | p <;>
    rcases hx : x.purchase_date_ms with _ | q <;> rw [he, hx] at h <;> simp at h
  exact ⟨p, q, rfl, rfl, by omega⟩

theorem purchaseBefore_true_keys {e x : SubEntry} {p q : Int}
    (h : purchaseBefore e x = true) (he : e.purchase_date_ms = some p)
    (hx : x.purchase_date_ms = some q) : q ≤ p := by
  unfold purchaseBefore at h
  rw [he, hx] at h
  simpa using h

theorem filter_insertDesc_neg (p : SubEntry → Bool) (e : SubEntry)
    (l : List SubEntry) (hp : p e = false) :
    (insertDesc e l).filter p = l.filter p := by
  induction l with
  | nil => simp [insertDesc, List.filter_cons, hp]
  | cons x xs ih =>
    unfold insertDesc
    split
    · simp [List.filter_cons, hp]
    · simp only [List.filter_cons]
      cases hx : p x <;> simp [hx, ih]

theorem filter_key_insertDesc (e : SubEntry) (l : List SubEntry) :
    (insertDesc e l).filter (fun x => x.purchase_date_ms == e.purchase_date_ms)
      = e :: l.filter (fun x => x.purchase_date_ms == e.purchase_date_ms) := by
  induction l with
  | nil => simp [insertDesc, List.filter_cons]
  | cons x xs ih =>
    unfold insertDesc
    split
    · simp [List.filter_cons]
    · rename_i hb
      have hb' : purchaseBefore e x = false := by simpa using hb
      obtain ⟨p, q, hep, hxq, hlt⟩ := purchaseBefore_false hb'
      have hne : (x.purchase_date_ms == e.purchase_date_ms) = false := by
        rw [hep, hxq]; simp; omega
      simp [List.filter_cons, hne, ih]

theorem sortDesc_filter_key (l : List SubEntry) (k : Option Int) :
    (sortDesc l).filter (fun e => e.purchase_date_ms == k)
      = l.filter (fun e => e.purchase_date_ms == k) := by
  induction l with
  | nil => rfl
  | cons a l ih =>
    have hs : sortDesc (a :: l) = insertDesc a (sortDesc l) := rfl
    rw [hs]
    by_cases hk : a.purchase_date_ms = k
    · subst hk
      rw [filter_key_insertDesc, ih]
      simp [List.filter_cons]
    · have ha : (a.purchase_date_ms == k) = false := by simpa using hk
      rw [filter_insertDesc_neg _ _ _ ha, ih]
      simp [List.filter_cons, ha]

theorem pairwise_insertDesc (e : SubEntry) (l : List SubEntry)
    (he : e.purchase_date_ms.isSome) (hl : ∀ x ∈ l, x.purchase_date_ms.isSome)
    (h : l.Pairwise purchaseGe) : (insertDesc e l).Pairwise purchaseGe := by
  induction l with
  | nil => simp [insertDesc]
  | cons x xs ih =>
    rw [List.pairwise_cons] at h
    obtain ⟨hx, hxs⟩ := h
    unfold insertDesc
    cases hpb : purchaseBefore e x
    · simp only [Bool.false_eq_true, if_false]
      rw [List.pairwise_cons]
      obtain ⟨p, q, hep, hxq, hlt⟩ := purchaseBefore_false hpb
      constructor
      · intro y hy
        rcases List.mem_cons.mp ((insertDesc_perm e xs).mem_iff.mp hy) with rfl | hy
        · intro a b hxa heb
          rw [hxq] at hxa; rw [hep] at heb
          cases hxa; cases heb; omega
        · exact hx y hy
      · exact ih (fun z hz => hl z (List.mem_cons_of_mem x hz)) hxs
    · simp only [if_true]
      rw [List.pairwise_cons]
      obtain ⟨q, hxq⟩ := Option.isSome_iff_exists.mp (hl x (List.mem_cons_self x xs))
      obtain ⟨p, hep⟩ := Option.isSome_iff_exists.mp he
      have hqp : q ≤ p := purchaseBefore_true_keys hpb hep hxq
      constructor
      · intro y hy
        rcases List.mem_cons.mp hy with hy | hy
        · subst hy
          intro a b hea hyb
          rw [hep] at hea; cases hea
          rw [hxq] at hyb; cases hyb
          omega
        · intro a b hea hyb
          rw [hep] at hea; cases hea
          obtain ⟨r, hyr⟩ := Option.isSome_iff_exists.mp
            (hl y (List.mem_cons_of_mem x hy))
          have := hx y hy q r hxq hyr
          rw [hyr] at hyb; cases hyb
          omega
      · rw [List.pairwise_cons]
        exact ⟨hx, hxs⟩

theorem sortDesc_pairwise (l : List SubEntry)
    (hl : ∀ x ∈ l, x.purchase_date_ms.isSome) :
    (sortDesc l).Pairwise purchaseGe := by
  induction l with
  | nil => constructor
  | cons a l ih =>
    have hs : sortDesc (a :: l) = insertDesc a (sortDesc l) := rfl
    rw [hs]
    refine pairwise_insertDesc a (sortDesc l) (hl a (List.mem_cons_self a l)) ?_ ?_
    · intro x hx
      exact hl x (List.mem_cons_of_mem a ((sortDesc_perm l).mem_iff.mp hx))
    · exact ih (fun x hx => hl x (List.mem_cons_of_mem a hx))

/-- Claim C2: the entitlement matcher maps gpt-4 to com.omegaai.chat4 and
every other model string to com.omegaai.chat3; the sort is a permutation
of the input, descending in parsed purchase time, and stable (each
purchase-key class keeps its input order); a selected entry belongs to
the input, matches the product and has expiration strictly after now;
with two unexpired same-product entries the later-purchased one is
selected whatever the input order; and when no entry qualifies the
request ends 403 NoActiveSubscription. -/
theorem entitlement_matcher_correct :
    (productIdFor "gpt-4" = "com.omegaai.chat4"
      ∧ ∀ m : String, m ≠ "gpt-4" → productIdFor m = "com.omegaai.chat3") ∧
    (∀ l : List SubEntry, (sortDesc l).Perm l) ∧
    (∀ l : List SubEntry, (∀ e ∈ l, e.purchase_date_ms.isSome) →
      (sortDesc l).Pairwise purchaseGe) ∧
    (∀ (l : List SubEntry) (k : Option Int),
      (sortDesc l).filter (fun e => e.purchase_date_ms == k)
        = l.filter (fun e => e.purchase_date_ms == k)) ∧
    (∀ (now : Int) (pid : String) (l : List SubEntry) (tx : SubEntry),
      findValidTransaction now pid l = some tx →
        tx ∈ l ∧ tx.product_id = pid ∧ ∃ x, tx.expires_date_ms = some x ∧ now < x) ∧
    (∀ (now : Int) (pid : String) (e1 e2 : SubEntry) (p1 p2 x1 x2 : Int),
      e1.product_id = pid → e2.product_id = pid →
      e1.purchase_date_ms = some p1 → e2.purchase_date_ms = some p2 → p1 < p2 →
      e1.expires_date_ms = some x1 → now < x1 →
      e2.expires_date_ms = some x2 → now < x2 →
      findValidTransaction now pid [e1, e2] = some e2
        ∧ findValidTransaction now pid [e2, e1] = some e2) ∧
    (∀ (rs ps m : String) (resp : AppleResponse) (now : Int)
        (upstream : UpstreamOutcome) (st : Usage),
      jsTrim rs ≠ "" → jsTrim ps ≠ "" → (m = "gpt-3.5-turbo" ∨ m = "gpt-4") →
      findValidTransaction now (productIdFor m)
          (resp.latest_receipt_info.getD []) = none →
      handleChat ⟨.vstr rs, .vstr ps, .vstr m⟩ (.ok resp) now upstream st
        = ⟨⟨403, .error "No active subscription for requested model."⟩,
            st, true, false⟩) := by
  refine ⟨⟨rfl, ?_⟩, sortDesc_perm, sortDesc_pairwise, sortDesc_filter_key,
    ?_, ?_, ?_⟩
  · intro m hm
    have hb : (m == "gpt-4") = false := by simpa using hm
    simp [productIdFor, hb]
  · intro now pid l tx h
    unfold findValidTransaction at h
    have hq := List.find?_some h
    have hmem := List.mem_of_find?_eq_some h
    refine ⟨(sortDesc_perm l).mem_iff.mp hmem, ?_⟩
    rcases hx : tx.expires_date_ms with _ | x <;> simp [qualifies, hx] at hq
    exact ⟨hq.1, x, rfl, hq.2⟩
  · intro now pid e1 e2 p1 p2 x1 x2 h1 h2 hp1 hp2 hlt hx1 hnx1 hx2 hnx2
    have hb : purchaseBefore e1 e2 = false := by
      unfold purchaseBefore; rw [hp1, hp2]; simp; omega
    have hb' : purchaseBefore e2 e1 = true := by
      unfold purchaseBefore; rw [hp1, hp2]; simp; omega
    have hs1 : sortDesc [e1, e2] = [e2, e1] := by
      show insertDesc e1 (insertDesc e2 []) = [e2, e1]
      simp [insertDesc, hb]
    have hs2 : sortDesc [e2, e1] = [e2, e1] := by
      show insertDesc e2 (insertDesc e1 []) = [e2, e1]
      simp [insertDesc, hb']
    constructor
    · unfold findValidTransaction
      rw [hs1]
      simp [List.find?, qualifies, h2, hx2, hnx2]
    · unfold findValidTransaction
      rw [hs2]
      simp [List.find?, qualifies, h2, hx2, hnx2]
  · intro rs ps m resp now upstream st hr hp hm hnone
    have hmb : (m == "gpt-3.5-turbo" || m == "gpt-4") = true := by
      rcases hm with h | h <;> simp [h]
    simp [handleChat, isNonEmptyStr, hr, hp, hmb, hnone]

/-- Witness for C2: of two unexpired premium entries the later-purchased
one (T2, purchased at 7) is selected over the earlier one (T1, purchased
at 5) even though it expires sooner. -/
theorem entitlement_matcher_correct_witness :
    findValidTransaction 0 "com.omegaai.chat4"
        [⟨"com.omegaai.chat4", "T1", some 30, some 5⟩,
          ⟨"com.omegaai.chat4", "T2", some 20, some 7⟩]
      = some ⟨"com.omegaai.chat4", "T2", some 20, some 7⟩ :=
  (entitlement_matcher_correct.2.2.2.2.2.1 0 "com.omegaai.chat4"
    ⟨"com.omegaai.chat4", "T1", some 30, some 5⟩
    ⟨"com.omegaai.chat4", "T2", some 20, some 7⟩ 5 7 30 20 rfl rfl rfl rfl
    (by omega) rfl (by omega) rfl (by omega)).1

/-- Claim C10: the entitlement matcher is total on arbitrary verifier
output: an entry whose expiration field did not parse is never selected,
so a verifier result whose matching-product entries all have unparseable
expirations ends in the 403 NoActiveSubscription rejection rather than an
internal fault, and any selected entry carries a parsed expiration
strictly later than now. -/
theorem malformed_entries_no_fault (rs ps m : String) (hr : jsTrim rs ≠ "")
    (hp : jsTrim ps ≠ "") (hm : m = "gpt-3.5-turbo" ∨ m = "gpt-4")
    (resp : AppleResponse) (now : Int) (upstream : UpstreamOutcome) (st : Usage) :
    ((∀ e ∈ resp.latest_receipt_info.getD [], e.product_id = productIdFor m →
        e.expires_date_ms = none) →
      handleChat ⟨.vstr rs, .vstr ps, .vstr m⟩ (.ok resp) now upstream st
        = ⟨⟨403, .error "No active subscription for requested model."⟩,
            st, true, false⟩) ∧
    (∀ (pid : String) (l : List SubEntry) (tx : SubEntry),
      findValidTransaction now pid l = some tx →
        ∃ x, tx.expires_date_ms = some x ∧ now < x) := by
  constructor
  · intro hmal
    have hnone : findValidTransaction now (productIdFor m)
        (resp.latest_receipt_info.getD []) = none := by
      unfold findValidTransaction
      rw [List.find?_eq_none]
      intro e he
      have he' : e ∈ resp.latest_receipt_info.getD [] :=
        (sortDesc_perm _).mem_iff.mp he
      by_cases hprod : e.product_id = productIdFor m
      · have hexp := hmal e he' hprod
        simp [qualifies, hexp]
      · simp [qualifies, hprod]
    have hmb : (m == "gpt-3.5-turbo" || m == "gpt-4") = true := by
      rcases hm with h | h <;> simp [h]
    simp [handleChat, isNonEmptyStr, hr, hp, hmb, hnone]
  · intro pid l tx h
    unfold findValidTransaction at h
    have hq := List.find?_some h
    rcases hx : tx.expires_date_ms with _ | x <;> simp [qualifies, hx] at hq
    exact ⟨x, rfl, hq.2⟩

/-- Witness for C10: a lone matching entry with unparseable dates yields
exactly the 403 NoActiveSubscription response. -/
theorem malformed_entries_no_fault_witness :
    handleChat ⟨.vstr "r", .vstr "p", .vstr "gpt-4"⟩
        (.ok ⟨some [⟨"com.omegaai.chat4", "T1", none, none⟩]⟩) 0 .notOk []
      = ⟨⟨403, .error "No active subscription for requested model."⟩,
          [], true, false⟩ := by
  refine (malformed_entries_no_fault "r" "p" "gpt-4" (by decide) (by decide)
    (Or.inr rfl) ⟨some [⟨"com.omegaai.chat4", "T1", none, none⟩]⟩ 0 .notOk []).1 ?_
  intro e he _
  have he' : e = ⟨"com.omegaai.chat4", "T1", none, none⟩ := by simpa using he
  rw [he']

end OmegaAI
